import Mathlib

/-!
Verification of the redis_ts asynchronous command façade
(`src/async_commands.rs`) against its natural-language specification.

The façade composes token encoders for configuration / filter / range-query
objects with a single transport call and a reply decoder.  The façade itself
is embedded directly from `src/async_commands.rs`.  The encoder and decoder
types it uses (`TsOptions`, `TsFilterOptions`, `TsRangeQuery`,
`TsAggregationType`, and the reply decoders) live in the crate's `types`
module, which is not part of the provided sources; those definitions are
modelled from the specification (sections 3, 4.1 - 4.5) and are each marked
`Modelled from the spec:`.
-/

namespace RedisTs

/-- The transport's generic reply representation: nil, integer, bulk string,
status line, or array of replies. -/
inductive RedisValue where
  | nil
  | int (i : Int)
  | data (s : String)
  | status (s : String)
  | bulk (items : List RedisValue)

/-- Errors of the transport / decode pipeline (`redis::RedisError`), kept
abstract as a message string. -/
abbrev RedisError := String

/-- A transport: `execute(command_name, ordered_arguments) -> ReplyValue`
or a transport error.  The façade treats it as a black box. -/
abbrev Transport := String → List String → Except RedisError RedisValue

/-- A reply decoder, the shallow embedding of a `FromRedisValue` instance. -/
abbrev Decoder (α : Type) := RedisValue → Except RedisError α

/-- Decidable equality on results, to evaluate concrete outcomes. -/
instance {ε α : Type} [DecidableEq ε] [DecidableEq α] :
    DecidableEq (Except ε α) := fun a b =>
  match a, b with
  | .ok x, .ok y =>
    if h : x = y then .isTrue (by rw [h])
    else .isFalse (fun hc => h (Except.ok.inj hc))
  | .error x, .error y =>
    if h : x = y then .isTrue (by rw [h])
    else .isFalse (fun hc => h (Except.error.inj hc))
  | .ok _, .error _ => .isFalse (fun hc => Except.noConfusion hc)
  | .error _, .ok _ => .isFalse (fun hc => Except.noConfusion hc)

/-- Trace of one façade operation: the commands issued to the transport
(command name with its ordered argument tokens) and the typed result. -/
structure OpTrace (α : Type) where
  issued : List (String × List String)
  result : Except RedisError α

/-- `cmd(name).arg(args).query_async(self)`: issue exactly one command on the
transport and decode the reply; a transport error or a decode error is the
result.  This is the single suspend/resolve point of every operation. -/
def query_async (t : Transport) (name : String) (args : List String)
    (dec : Decoder α) : OpTrace α :=
  ⟨[(name, args)], (t name args).bind dec⟩

/-- `Result::or`: keep a success, replace any failure by the alternative. -/
def resultOr (r : Except RedisError α) (alt : Except RedisError α) :
    Except RedisError α :=
  match r with
  | .ok a => .ok a
  | .error _ => alt

/-- Modelled from the spec: duplicate-insert policy (section 3), one of
block, first, last, min, max, sum; `types.rs` is not in the sources. -/
inductive TsDuplicatePolicy where
  | block
  | first
  | last
  | min
  | max
  | sum
deriving DecidableEq

/-- Modelled from the spec: the wire token of a duplicate policy (section 8
shows `DUPLICATE_POLICY last`, so lowercase mnemonics). -/
def TsDuplicatePolicy.token : TsDuplicatePolicy → String
  | .block => "block"
  | .first => "first"
  | .last => "last"
  | .min => "min"
  | .max => "max"
  | .sum => "sum"

/-- Modelled from the spec: `TsOptions` (SeriesConfiguration, section 3):
optional retention, optional chunk size, optional duplicate policy,
tri-state uncompressed flag, label pairs; `types.rs` is not in the
sources. -/
structure TsOptions where
  retention_time : Option Nat := none
  chunk_size : Option Nat := none
  duplicate_policy : Option TsDuplicatePolicy := none
  uncompressed : Option Bool := none
  labels : List (String × String) := []
deriving DecidableEq

/-- Modelled from the spec: tokens of the retention field; unset
contributes zero tokens (section 4.2). -/
def retention_args : Option Nat → List String
  | none => []
  | some r => ["RETENTION", toString r]

/-- Modelled from the spec: tokens of the chunk-size field; unset
contributes zero tokens (section 4.2). -/
def chunk_args : Option Nat → List String
  | none => []
  | some c => ["CHUNK_SIZE", toString c]

/-- Modelled from the spec: tokens of the duplicate-policy field; unset
contributes zero tokens (section 4.2). -/
def dup_args : Option TsDuplicatePolicy → List String
  | none => []
  | some p => ["DUPLICATE_POLICY", p.token]

/-- Modelled from the spec: the `UNCOMPRESSED` flag token, emitted only if
explicitly true; unset or false contributes zero tokens (section 4.2). -/
def uncompressed_args : Option Bool → List String
  | some true => ["UNCOMPRESSED"]
  | _ => []

/-- Modelled from the spec: the `LABELS name value ...` block, present only
when labels exist (section 4.2). -/
def labels_args : List (String × String) → List String
  | [] => []
  | ls => "LABELS" :: (ls.map fun p => [p.1, p.2]).flatten

/-- Modelled from the spec: the series-configuration encoder, emitting in
fixed order `RETENTION`?, `CHUNK_SIZE`?, `DUPLICATE_POLICY`?,
`UNCOMPRESSED`?, `LABELS ...`? (section 4.2). -/
def TsOptions.args (o : TsOptions) : List String :=
  retention_args o.retention_time ++ chunk_args o.chunk_size ++
    dup_args o.duplicate_policy ++ uncompressed_args o.uncompressed ++
    labels_args o.labels

/-- Modelled from the spec: the `TsOptions::uncompressed(bool)` builder used
by `ts_alter`, setting the tri-state flag to an explicit boolean. -/
def TsOptions.set_uncompressed (o : TsOptions) (b : Bool) : TsOptions :=
  { o with uncompressed := some b }

/-- Modelled from the spec: one label predicate of a filter expression set
(section 3): equals, not-equals, exists, not-exists, value-in-set,
value-not-in-set. -/
inductive TsFilter where
  | eq (label value : String)
  | ne (label value : String)
  | hasLabel (label : String)
  | notHasLabel (label : String)
  | inSet (label : String) (values : List String)
  | notInSet (label : String) (values : List String)
deriving DecidableEq

/-- Modelled from the spec: wire form of one predicate (section 4.3). -/
def TsFilter.token : TsFilter → String
  | .eq l v => l ++ "=" ++ v
  | .ne l v => l ++ "!=" ++ v
  | .hasLabel l => l ++ "="
  | .notHasLabel l => l ++ "!="
  | .inSet l vs => l ++ "=(" ++ String.intercalate "," vs ++ ")"
  | .notInSet l vs => l ++ "!=(" ++ String.intercalate "," vs ++ ")"

/-- Modelled from the spec: `TsFilterOptions` (FilterExpressionSet,
section 3): predicates plus auxiliary with-labels / selected-labels /
count options. -/
structure TsFilterOptions where
  with_labels : Bool := false
  selected_labels : List String := []
  count : Option Nat := none
  filters : List TsFilter := []
deriving DecidableEq

/-- Modelled from the spec: `TsFilterOptions::get_filters()`, producing the
predicate wire tokens only; an empty predicate list is a caller error
rejected before any token is produced (sections 4.3, 8). -/
def TsFilterOptions.get_filters (fo : TsFilterOptions) :
    Except RedisError (List String) :=
  match fo.filters with
  | [] => .error "at least one filter expression is required"
  | f :: rest => .ok ((f :: rest).map TsFilter.token)

/-- Modelled from the spec: tokens of the optional count cap. -/
def count_args : Option Nat → List String
  | none => []
  | some n => ["COUNT", toString n]

/-- Modelled from the spec: tokens of the selected-labels subset. -/
def selected_labels_args : List String → List String
  | [] => []
  | ls => "SELECTED_LABELS" :: ls

/-- Modelled from the spec: the full filter-expression-set encoder: the
predicate tokens followed by the optional trailing `WITHLABELS`,
`SELECTED_LABELS ...`, `COUNT n` tokens (section 4.3); fails before
producing any token when the predicate list is empty. -/
def TsFilterOptions.args (fo : TsFilterOptions) :
    Except RedisError (List String) := do
  let fs ← fo.get_filters
  pure (fs ++ (if fo.with_labels then ["WITHLABELS"] else []) ++
    selected_labels_args fo.selected_labels ++ count_args fo.count)

/-- Modelled from the spec: the aggregation function tag (section 3). -/
inductive TsAggregationKind where
  | avg
  | sum
  | min
  | max
  | range
  | count
  | first
  | last
  | stdP
  | stdS
  | varP
  | varS
  | twa
deriving DecidableEq

/-- Modelled from the spec: uppercase store mnemonic of an aggregation
function (section 4.1). -/
def TsAggregationKind.token : TsAggregationKind → String
  | .avg => "AVG"
  | .sum => "SUM"
  | .min => "MIN"
  | .max => "MAX"
  | .range => "RANGE"
  | .count => "COUNT"
  | .first => "FIRST"
  | .last => "LAST"
  | .stdP => "STD.P"
  | .stdS => "STD.S"
  | .varP => "VAR.P"
  | .varS => "VAR.S"
  | .twa => "TWA"

/-- Modelled from the spec: `TsAggregationType` (AggregationDescriptor,
section 3): the function / bucket pair is atomic, neither exists without
the other. -/
structure TsAggregationType where
  kind : TsAggregationKind
  bucket : Nat
deriving DecidableEq

/-- Modelled from the spec: the aggregation encoder, producing the token
triple `AGGREGATION <function> <bucket>` (section 4.1). -/
def TsAggregationType.args (a : TsAggregationType) : List String :=
  ["AGGREGATION", a.kind.token, toString a.bucket]

/-- Modelled from the spec: a range bound: explicit timestamp or the
earliest / latest sentinel (section 3). -/
inductive TsTimestamp where
  | earliest
  | latest
  | stamp (t : Nat)
deriving DecidableEq

/-- Modelled from the spec: wire token of a range bound, `-` / `+` for the
sentinels (section 4.4). -/
def TsTimestamp.token : TsTimestamp → String
  | .earliest => "-"
  | .latest => "+"
  | .stamp t => toString t

/-- Modelled from the spec: `TsRangeQuery` (RangeQuery, section 3):
time bounds, optional count cap, optional value filter, optional
alignment, optional aggregation descriptor. -/
structure TsRangeQuery where
  from_timestamp : TsTimestamp := .earliest
  to_timestamp : TsTimestamp := .latest
  count : Option Nat := none
  filter_by_value : Option (Int × Int) := none
  align : Option Nat := none
  aggregation : Option TsAggregationType := none
deriving DecidableEq

/-- Modelled from the spec: the range-query encoder: start and end tokens,
then optional `COUNT`, `FILTER_BY_VALUE`, `ALIGN` and aggregation blocks
(section 4.4); shared by all four range operations. -/
def TsRangeQuery.args (q : TsRangeQuery) : List String :=
  [q.from_timestamp.token, q.to_timestamp.token] ++ count_args q.count ++
    (match q.filter_by_value with
     | none => []
     | some (lo, hi) => ["FILTER_BY_VALUE", toString lo, toString hi]) ++
    (match q.align with
     | none => []
     | some a => ["ALIGN", toString a]) ++
    (match q.aggregation with
     | none => []
     | some ag => ag.args)

/-- Modelled from the spec: the single-point pair decode (section 4.5 /
`FromRedisValue` for a two-element tuple): only a well-formed two-element
array yields a point, built from the caller-supplied timestamp and value
decoders (section 9, parametrized decoder strategy). -/
def decodePair (dTS : Decoder TS) (dV : Decoder V) : Decoder (TS × V)
  | .bulk [a, b] => do
    let x ← dTS a
    let y ← dV b
    pure (x, y)
  | _ => .error "expected a two element array reply"

/-- Modelled from the spec: optional decode (`FromRedisValue` for
`Option`): a nil reply is "no value", anything else is decoded by the
inner decoder (section 4.5). -/
def decodeOption (d : Decoder α) : Decoder (Option α)
  | .nil => .ok none
  | v => (d v).map some

/-- Decode of a bulk-string or status reply into a `String`. -/
def decodeString : Decoder String
  | .data s => .ok s
  | .status s => .ok s
  | _ => .error "expected a string reply"

/-- Modelled from the spec: decode of an array of strings
(`FromRedisValue` for `Vec<String>`), used by the index query. -/
def decodeStringList : Decoder (List String)
  | .bulk items => items.mapM decodeString
  | _ => .error "expected an array reply"

/-- The value of a decimal digit character, if it is one. -/
def digitVal? (c : Char) : Option Nat :=
  if '0' ≤ c ∧ c ≤ '9' then some (c.toNat - Char.toNat '0') else none

/-- Read a digit sequence as a natural number, most significant first. -/
def digitsAux : List Char → Nat → Option Nat
  | [], acc => some acc
  | c :: rest, acc =>
    match digitVal? c with
    | none => none
    | some d => digitsAux rest (acc * 10 + d)

/-- A nonempty digit sequence as a natural number. -/
def digitsToNat? : List Char → Option Nat
  | [] => none
  | cs => digitsAux cs 0

/-- Split a character sequence at the first dot. -/
def splitDot : List Char → List Char × Option (List Char)
  | [] => ([], none)
  | c :: rest =>
    if c = '.' then ([], some rest)
    else
      let (w, f) := splitDot rest
      (c :: w, f)

/-- A caller decoder for natural-number timestamps. -/
def decodeNat : Decoder Nat
  | .int i => if i < 0 then .error "negative integer reply" else .ok i.toNat
  | .data s =>
    match digitsToNat? s.data with
    | some n => .ok n
    | none => .error "expected a numeric string reply"
  | _ => .error "expected an integer reply"

/-- Parse a decimal literal such as `"2.5"` into a rational number. -/
def parseDecimal (s : String) : Option ℚ :=
  match splitDot s.data with
  | (w, none) => (digitsToNat? w).map (fun n => (n : ℚ))
  | (w, some f) => do
    let wn ← digitsToNat? w
    let fn ← digitsToNat? f
    pure ((wn : ℚ) + (fn : ℚ) / ((10 : ℚ) ^ f.length))

/-- A caller decoder for rational sample values written as decimal
strings. -/
def decodeQ : Decoder ℚ
  | .int i => .ok (i : ℚ)
  | .data s =>
    match parseDecimal s with
    | some q => .ok q
    | none => .error "expected a decimal string reply"
  | _ => .error "expected a numeric reply"

/-- Group a flat alternating field-name / field-value list into pairs. -/
def toPairs : List RedisValue → List (RedisValue × RedisValue)
  | a :: b :: rest => (a, b) :: toPairs rest
  | _ => []

/-- Modelled from the spec: decode of a label array (entries
`[name, value]`); malformed entries are dropped, defaults to empty
(section 4.5). -/
def decodeLabelList : RedisValue → List (String × String)
  | .bulk items =>
    items.filterMap fun e =>
      match e with
      | .bulk [.data n, .data v] => some (n, v)
      | _ => none
  | _ => []

/-- Modelled from the spec: a compaction rule of the metadata reply:
destination key, bucket duration, aggregation name (section 3). -/
structure TsRule where
  dest_key : String
  bucket : Nat
  aggregation : String
deriving DecidableEq

/-- Modelled from the spec: decode of the rule list of a metadata reply;
defaults to empty (section 4.5). -/
def decodeRuleList : RedisValue → List TsRule
  | .bulk items =>
    items.filterMap fun e =>
      match e with
      | .bulk [.data k, .int b, .data a] =>
        if b < 0 then none else some ⟨k, b.toNat, a⟩
      | _ => none
  | _ => []

/-- Modelled from the spec: `TsInfo` (SeriesInfo, section 3), a read-only
metadata snapshot with documented defaults for missing fields. -/
structure TsInfo where
  total_samples : Nat := 0
  memory_usage : Nat := 0
  first_timestamp : Nat := 0
  last_timestamp : Nat := 0
  retention_time : Nat := 0
  chunk_count : Nat := 0
  chunk_size : Nat := 0
  duplicate_policy : Option String := none
  labels : List (String × String) := []
  rules : List TsRule := []
deriving DecidableEq

/-- A non-negative integer reply, defaulting to 0 on any other shape. -/
def asNat : RedisValue → Nat
  | .int i => i.toNat
  | _ => 0

/-- Modelled from the spec: apply one field-name / field-value entry of a
metadata reply to the snapshot; unknown fields are ignored (section 4.5). -/
def applyInfoField (info : TsInfo) : RedisValue × RedisValue → TsInfo
  | (.data "totalSamples", v) => { info with total_samples := asNat v }
  | (.data "memoryUsage", v) => { info with memory_usage := asNat v }
  | (.data "firstTimestamp", v) => { info with first_timestamp := asNat v }
  | (.data "lastTimestamp", v) => { info with last_timestamp := asNat v }
  | (.data "retentionTime", v) => { info with retention_time := asNat v }
  | (.data "chunkCount", v) => { info with chunk_count := asNat v }
  | (.data "chunkSize", v) => { info with chunk_size := asNat v }
  | (.data "duplicatePolicy", .data p) =>
    { info with duplicate_policy := some p }
  | (.data "labels", v) => { info with labels := decodeLabelList v }
  | (.data "rules", v) => { info with rules := decodeRuleList v }
  | _ => info

/-- Modelled from the spec: the metadata decoder: an alternating
field-name / field-value array folds into a `TsInfo`, missing fields keep
their documented defaults; any other shape fails loudly (sections 4.5,
7). -/
def decodeTsInfo : Decoder TsInfo
  | .bulk items => .ok ((toPairs items).foldl applyInfoField {})
  | _ => .error "expected a metadata array reply"

/-- Modelled from the spec: `TsRange` (SeriesRange, section 3): the ordered
point sequence of one series, order preserved from the reply. -/
structure TsRange (TS V : Type) where
  values : List (TS × V)
deriving DecidableEq

/-- Modelled from the spec: the single-series range decoder: an array of
two-element entries becomes an ordered point sequence; an empty array is an
empty sequence; any other shape fails loudly (sections 4.5, 7). -/
def decodeTsRange (dTS : Decoder TS) (dV : Decoder V) : Decoder (TsRange TS V)
  | .bulk items => (items.mapM (decodePair dTS dV)).map TsRange.mk
  | _ => .error "expected a range array reply"

/-- Modelled from the spec: one multi-get entry: series key, label set, and
the latest point when the series has data (section 4.5). -/
structure TsMgetEntry (TS V : Type) where
  key : String
  labels : List (String × String)
  value : Option (TS × V)
deriving DecidableEq

/-- Modelled from the spec: `TsMget` (MultiSeriesResult for multi-get,
section 3), entries in server reply order. -/
structure TsMget (TS V : Type) where
  values : List (TsMgetEntry TS V)
deriving DecidableEq

/-- Modelled from the spec: decode of one multi-get entry
`[key, labels, payload]`; an empty payload stays an empty entry
(section 4.5). -/
def decodeMgetEntry (dTS : Decoder TS) (dV : Decoder V) :
    Decoder (TsMgetEntry TS V)
  | .bulk [.data k, ls, payload] =>
    match payload with
    | .bulk [] => .ok ⟨k, decodeLabelList ls, none⟩
    | p => (decodePair dTS dV p).map fun pt => ⟨k, decodeLabelList ls, some pt⟩
  | _ => .error "expected a multi get entry reply"

/-- Modelled from the spec: the multi-get decoder, preserving the server's
key order (section 4.5). -/
def decodeTsMget (dTS : Decoder TS) (dV : Decoder V) : Decoder (TsMget TS V)
  | .bulk items => (items.mapM (decodeMgetEntry dTS dV)).map TsMget.mk
  | _ => .error "expected a multi get array reply"

/-- Modelled from the spec: one multi-range entry: series key, label set,
and the ordered point sequence (section 4.5). -/
structure TsMrangeEntry (TS V : Type) where
  key : String
  labels : List (String × String)
  values : List (TS × V)
deriving DecidableEq

/-- Modelled from the spec: `TsMrange` (MultiSeriesResult for multi-range,
section 3), entries in server reply order, empty series preserved. -/
structure TsMrange (TS V : Type) where
  values : List (TsMrangeEntry TS V)
deriving DecidableEq

/-- Modelled from the spec: decode of one multi-range entry
`[key, labels, points]` (section 4.5). -/
def decodeMrangeEntry (dTS : Decoder TS) (dV : Decoder V) :
    Decoder (TsMrangeEntry TS V)
  | .bulk [.data k, ls, .bulk pts] =>
    (pts.mapM (decodePair dTS dV)).map fun vs => ⟨k, decodeLabelList ls, vs⟩
  | _ => .error "expected a multi range entry reply"

/-- Modelled from the spec: the multi-range decoder, preserving the
server's key order (section 4.5). -/
def decodeTsMrange (dTS : Decoder TS) (dV : Decoder V) :
    Decoder (TsMrange TS V)
  | .bulk items => (items.mapM (decodeMrangeEntry dTS dV)).map TsMrange.mk
  | _ => .error "expected a multi range array reply"

/-- `ts_info`: `cmd("TS.INFO").arg(key).query_async(self)`. -/
def ts_info (t : Transport) (key : String) : OpTrace TsInfo :=
  query_async t "TS.INFO" [key] decodeTsInfo

/-- `ts_create`: `cmd("TS.CREATE").arg(key).arg(options).query_async(self)`;
the result decoder stands for the caller-chosen `RV: FromRedisValue`. -/
def ts_create (t : Transport) (key : String) (options : TsOptions)
    (dec : Decoder RV) : OpTrace RV :=
  query_async t "TS.CREATE" (key :: options.args) dec

/-- `ts_alter`:
`cmd("TS.ALTER").arg(key).arg(options.uncompressed(false)).query_async(self)`. -/
def ts_alter (t : Transport) (key : String) (options : TsOptions)
    (dec : Decoder RV) : OpTrace RV :=
  query_async t "TS.ALTER" (key :: (options.set_uncompressed false).args) dec

/-- `ts_add`: `cmd("TS.ADD").arg(key).arg(ts).arg(value).query_async(self)`;
key, timestamp and value stand for their `ToRedisArgs` wire tokens. -/
def ts_add (t : Transport) (key ts value : String) (dec : Decoder RV) :
    OpTrace RV :=
  query_async t "TS.ADD" [key, ts, value] dec

/-- `ts_add_now`: `cmd("TS.ADD").arg(key).arg("*").arg(value)`. -/
def ts_add_now (t : Transport) (key value : String) (dec : Decoder RV) :
    OpTrace RV :=
  query_async t "TS.ADD" [key, "*", value] dec

/-- `ts_add_create`:
`cmd("TS.ADD").arg(key).arg(ts).arg(value).arg(options).query_async(self)`. -/
def ts_add_create (t : Transport) (key ts value : String)
    (options : TsOptions) (dec : Decoder RV) : OpTrace RV :=
  query_async t "TS.ADD" (key :: ts :: value :: options.args) dec

/-- `ts_madd`: `cmd("TS.MADD").arg(values).query_async(self)`; each
(key, timestamp, value) triple contributes its three tokens in order. -/
def ts_madd (t : Transport) (values : List (String × String × String))
    (dec : Decoder RV) : OpTrace RV :=
  query_async t "TS.MADD"
    ((values.map fun v => [v.1, v.2.1, v.2.2]).flatten) dec

/-- `ts_incrby_now`: `cmd("TS.INCRBY").arg(key).arg(value)`. -/
def ts_incrby_now (t : Transport) (key value : String) (dec : Decoder RV) :
    OpTrace RV :=
  query_async t "TS.INCRBY" [key, value] dec

/-- `ts_incrby`:
`cmd("TS.INCRBY").arg(key).arg(value).arg("TIMESTAMP").arg(ts)`. -/
def ts_incrby (t : Transport) (key ts value : String) (dec : Decoder RV) :
    OpTrace RV :=
  query_async t "TS.INCRBY" [key, value, "TIMESTAMP", ts] dec

/-- `ts_incrby_create`:
`cmd("TS.INCRBY").arg(key).arg(value).arg("TIMESTAMP").arg(ts).arg(options)`. -/
def ts_incrby_create (t : Transport) (key ts value : String)
    (options : TsOptions) (dec : Decoder RV) : OpTrace RV :=
  query_async t "TS.INCRBY"
    ([key, value, "TIMESTAMP", ts] ++ options.args) dec

/-- `ts_decrby_now`: `cmd("TS.DECRBY").arg(key).arg(value)`. -/
def ts_decrby_now (t : Transport) (key value : String) (dec : Decoder RV) :
    OpTrace RV :=
  query_async t "TS.DECRBY" [key, value] dec

/-- `ts_decrby`:
`cmd("TS.DECRBY").arg(key).arg(value).arg("TIMESTAMP").arg(ts)`. -/
def ts_decrby (t : Transport) (key ts value : String) (dec : Decoder RV) :
    OpTrace RV :=
  query_async t "TS.DECRBY" [key, value, "TIMESTAMP", ts] dec

/-- `ts_decrby_create`:
`cmd("TS.DECRBY").arg(key).arg(value).arg("TIMESTAMP").arg(ts).arg(options)`. -/
def ts_decrby_create (t : Transport) (key ts value : String)
    (options : TsOptions) (dec : Decoder RV) : OpTrace RV :=
  query_async t "TS.DECRBY"
    ([key, value, "TIMESTAMP", ts] ++ options.args) dec

/-- `ts_createrule`:
`cmd("TS.CREATERULE").arg(source_key).arg(dest_key).arg(aggregation_type)`. -/
def ts_createrule (t : Transport) (source_key dest_key : String)
    (aggregation_type : TsAggregationType) (dec : Decoder RV) : OpTrace RV :=
  query_async t "TS.CREATERULE"
    (source_key :: dest_key :: aggregation_type.args) dec

/-- `ts_deleterule`:
`cmd("TS.DELETERULE").arg(source_key).arg(dest_key).query_async(self)`. -/
def ts_deleterule (t : Transport) (source_key dest_key : String)
    (dec : Decoder RV) : OpTrace RV :=
  query_async t "TS.DELETERULE" [source_key, dest_key] dec

/-- `ts_get`:
`cmd("TS.GET").arg(key).query_async(self).await.or(Ok(None))` -- any
failure of the call, transport or decode, is replaced by `Ok(None)`. -/
def ts_get (t : Transport) (key : String) (dTS : Decoder TS)
    (dV : Decoder V) : OpTrace (Option (TS × V)) :=
  let r := query_async t "TS.GET" [key] (decodeOption (decodePair dTS dV))
  ⟨r.issued, resultOr r.result (.ok none)⟩

/-- `ts_mget`: `cmd("TS.MGET").arg(filter_options).query_async(self)`; the
filter encoder rejects an empty predicate list before the transport is
called. -/
def ts_mget (t : Transport) (filter_options : TsFilterOptions)
    (dTS : Decoder TS) (dV : Decoder V) : OpTrace (TsMget TS V) :=
  match filter_options.args with
  | .error e => ⟨[], .error e⟩
  | .ok toks => query_async t "TS.MGET" toks (decodeTsMget dTS dV)

/-- `range(command, key, query)`: the shared single-series range helper,
`cmd(command).arg(key).arg(query).query_async(self)`. -/
def range (t : Transport) (command : String) (key : String)
    (query : TsRangeQuery) (dTS : Decoder TS) (dV : Decoder V) :
    OpTrace (TsRange TS V) :=
  query_async t command (key :: query.args) (decodeTsRange dTS dV)

/-- `ts_range`: `self.range("TS.RANGE", key, query)`. -/
def ts_range (t : Transport) (key : String) (query : TsRangeQuery)
    (dTS : Decoder TS) (dV : Decoder V) : OpTrace (TsRange TS V) :=
  range t "TS.RANGE" key query dTS dV

/-- `ts_revrange`: `self.range("TS.REVRANGE", key, query)`. -/
def ts_revrange (t : Transport) (key : String) (query : TsRangeQuery)
    (dTS : Decoder TS) (dV : Decoder V) : OpTrace (TsRange TS V) :=
  range t "TS.REVRANGE" key query dTS dV

/-- `mrange(command, query, filter_options)`: the shared multi-series range
helper, `cmd(command).arg(query).arg(filter_options).query_async(self)`;
the filter encoder rejects an empty predicate list before the transport is
called. -/
def mrange (t : Transport) (command : String) (query : TsRangeQuery)
    (filter_options : TsFilterOptions) (dTS : Decoder TS) (dV : Decoder V) :
    OpTrace (TsMrange TS V) :=
  match filter_options.args with
  | .error e => ⟨[], .error e⟩
  | .ok ftoks =>
    query_async t command (query.args ++ ftoks) (decodeTsMrange dTS dV)

/-- `ts_mrange`: `self.mrange("TS.MRANGE", query, filter_options)`. -/
def ts_mrange (t : Transport) (query : TsRangeQuery)
    (filter_options : TsFilterOptions) (dTS : Decoder TS) (dV : Decoder V) :
    OpTrace (TsMrange TS V) :=
  mrange t "TS.MRANGE" query filter_options dTS dV

/-- `ts_mrevrange`: `self.mrange("TS.MREVRANGE", query, filter_options)`. -/
def ts_mrevrange (t : Transport) (query : TsRangeQuery)
    (filter_options : TsFilterOptions) (dTS : Decoder TS) (dV : Decoder V) :
    OpTrace (TsMrange TS V) :=
  mrange t "TS.MREVRANGE" query filter_options dTS dV

/-- `ts_queryindex`:
`cmd("TS.QUERYINDEX").arg(filter_options.get_filters()).query_async(self)`;
only the predicate tokens reach the wire. -/
def ts_queryindex (t : Transport) (filter_options : TsFilterOptions) :
    OpTrace (List String) :=
  match filter_options.get_filters with
  | .error e => ⟨[], .error e⟩
  | .ok ftoks => query_async t "TS.QUERYINDEX" ftoks decodeStringList

/-! Helper lemmas shared by the claim theorems. -/

theorem resultOr_error (e : RedisError) (alt : Except RedisError α) :
    resultOr (.error e) alt = alt := rfl

theorem resultOr_ok (a : α) (alt : Except RedisError α) :
    resultOr (.ok a) alt = .ok a := rfl

theorem ts_get_result (t : Transport) (key : String) (dTS : Decoder TS)
    (dV : Decoder V) :
    (ts_get t key dTS dV).result =
      resultOr ((t "TS.GET" [key]).bind (decodeOption (decodePair dTS dV)))
        (.ok none) := rfl

theorem decodeOption_not_nil (d : Decoder α) (v : RedisValue)
    (h : v ≠ .nil) : decodeOption d v = (d v).map some := by
  cases v with
  | nil => exact absurd rfl h
  | int i => rfl
  | data s => rfl
  | status s => rfl
  | bulk items => rfl

theorem decodePair_not_two (dTS : Decoder TS) (dV : Decoder V)
    (items : List RedisValue) (h : items.length ≠ 2) :
    decodePair dTS dV (.bulk items) =
      .error "expected a two element array reply" := by
  match items with
  | [] => rfl
  | [_] => rfl
  | [_, _] => exact absurd rfl h
  | _ :: _ :: _ :: _ => rfl

theorem get_filters_ok (fo : TsFilterOptions) (h : fo.filters ≠ []) :
    fo.get_filters = .ok (fo.filters.map TsFilter.token) := by
  rcases hf : fo.filters with _ | ⟨f, rest⟩
  · exact absurd hf h
  · simp [TsFilterOptions.get_filters, hf]

theorem get_filters_empty (fo : TsFilterOptions) (h : fo.filters = []) :
    fo.get_filters = .error "at least one filter expression is required" := by
  simp [TsFilterOptions.get_filters, h]

theorem filter_args_ok (fo : TsFilterOptions) (h : fo.filters ≠ []) :
    fo.args = .ok (fo.filters.map TsFilter.token ++
      (if fo.with_labels then ["WITHLABELS"] else []) ++
      selected_labels_args fo.selected_labels ++ count_args fo.count) := by
  simp [TsFilterOptions.args, get_filters_ok fo h]

theorem filter_args_empty (fo : TsFilterOptions) (h : fo.filters = []) :
    fo.args = .error "at least one filter expression is required" := by
  simp [TsFilterOptions.args, get_filters_empty fo h]

/-! Claim theorems. -/

/-- C1: the single-point lookup `ts_get` returns `Ok(None)` whenever the
call does not produce a decodable value: a transport or decode failure is
converted to `Ok(None)`, a nil reply decodes to none, a reply that is not a
well-formed two-element array decodes to none, and a well-formed
two-element reply decodes to the point. -/
theorem c1_ts_get_tolerant {TS V : Type} (dTS : Decoder TS) (dV : Decoder V)
    (t : Transport) (key : String) :
    (∀ e, t "TS.GET" [key] = .error e →
      (ts_get t key dTS dV).result = .ok none) ∧
    (t "TS.GET" [key] = .ok .nil →
      (ts_get t key dTS dV).result = .ok none) ∧
    (∀ v e, t "TS.GET" [key] = .ok v →
      decodeOption (decodePair dTS dV) v = .error e →
      (ts_get t key dTS dV).result = .ok none) ∧
    (∀ items, t "TS.GET" [key] = .ok (.bulk items) → items.length ≠ 2 →
      (ts_get t key dTS dV).result = .ok none) ∧
    (∀ a b x y, t "TS.GET" [key] = .ok (.bulk [a, b]) →
      dTS a = .ok x → dV b = .ok y →
      (ts_get t key dTS dV).result = .ok (some (x, y))) := by
  refine ⟨?_, ?_, ?_, ?_, ?_⟩
  · intro e h
    rw [ts_get_result, h]
    rfl
  · intro h
    rw [ts_get_result, h]
    rfl
  · intro v e h hd
    rw [ts_get_result, h]
    show resultOr (decodeOption (decodePair dTS dV) v) (.ok none) = .ok none
    rw [hd]
    rfl
  · intro items h hlen
    rw [ts_get_result, h]
    show resultOr (decodeOption (decodePair dTS dV) (.bulk items))
      (.ok none) = .ok none
    rw [decodeOption_not_nil _ _ (by intro hc; cases hc),
      decodePair_not_two dTS dV items hlen]
    rfl
  · intro a b x y h hx hy
    rw [ts_get_result, h]
    show resultOr (decodeOption (decodePair dTS dV) (.bulk [a, b]))
      (.ok none) = .ok (some (x, y))
    rw [decodeOption_not_nil _ _ (by intro hc; cases hc)]
    show resultOr ((do
      let u ← dTS a
      let w ← dV b
      pure (u, w) : Except RedisError (TS × V)).map some) (.ok none)
        = .ok (some (x, y))
    rw [hx]
    show resultOr ((do
      let w ← dV b
      pure (x, w) : Except RedisError (TS × V)).map some) (.ok none)
        = .ok (some (x, y))
    rw [hy]
    rfl

/-- C1 witness: a two-element reply `[1609459200000, "2.5"]` decodes to the
point (1609459200000, 5/2). -/
theorem c1_witness :
    (ts_get (fun _ _ => .ok (.bulk [.int 1609459200000, .data "2.5"]))
      "my_ts" decodeNat decodeQ).result =
        .ok (some (1609459200000, (5 : ℚ)/2)) := by
  refine (c1_ts_get_tolerant decodeNat decodeQ _ "my_ts").2.2.2.2
    (.int 1609459200000) (.data "2.5") 1609459200000 ((5 : ℚ)/2) rfl rfl ?_
  show decodeQ (.data "2.5") = .ok ((5 : ℚ)/2)
  simp [decodeQ, parseDecimal, splitDot, digitsToNat?, digitsAux, digitVal?]
  norm_num

theorem decodeOption_bulk (d : Decoder α) (items : List RedisValue) :
    decodeOption d (.bulk items) = (d (.bulk items)).map some := rfl

/-- C3: `ts_alter` sends the encoding of the options with the uncompressed
flag forced to false, so the `UNCOMPRESSED` token is never contributed by
the flag and the caller's tri-state choice cannot reach the wire on the
alteration path. -/
theorem c3_ts_alter_forces_uncompressed_off {RV : Type} (dec : Decoder RV)
    (t : Transport) (key : String) (options : TsOptions) :
    (ts_alter t key options dec).issued
        = [("TS.ALTER", key :: (options.set_uncompressed false).args)] ∧
    (options.set_uncompressed false).uncompressed = some false ∧
    uncompressed_args (some false) = [] ∧
    (∀ x y : Option Bool,
      ts_alter t key { options with uncompressed := x } dec
        = ts_alter t key { options with uncompressed := y } dec) :=
  ⟨rfl, rfl, rfl, fun _ _ => rfl⟩

/-- C4: `ts_add_create` issues `TS.ADD` with tokens in the fixed order key,
timestamp, value, then the option tokens; the spec's concrete example
produces exactly `TS.ADD temp 1000 21.5 RETENTION 3600000`, and a
subsequent `ts_get` against the reply `[1000, "21.5"]` returns the point
(1000, 43/2). -/
theorem c4_ts_add_create_token_order {RV : Type} (dec : Decoder RV)
    (t : Transport) (key ts value : String) (options : TsOptions) :
    (ts_add_create t key ts value options dec).issued
        = [("TS.ADD", key :: ts :: value :: options.args)] ∧
    (ts_add_create t "temp" "1000" "21.5"
        { retention_time := some 3600000 } dec).issued
      = [("TS.ADD", ["temp", "1000", "21.5", "RETENTION", "3600000"])] ∧
    (ts_get (fun _ _ => .ok (.bulk [.int 1000, .data "21.5"])) "temp"
        decodeNat decodeQ).result = .ok (some (1000, (43 : ℚ)/2)) := by
  refine ⟨rfl, rfl, ?_⟩
  rw [ts_get_result]
  show resultOr
    (decodeOption (decodePair decodeNat decodeQ)
      (.bulk [.int 1000, .data "21.5"])) (.ok none) = _
  rw [decodeOption_bulk]
  have h21 : decodeQ (.data "21.5") = .ok ((43 : ℚ)/2) := by
    simp [decodeQ, parseDecimal, splitDot, digitsToNat?, digitsAux,
      digitVal?]
    norm_num
  show resultOr ((do
    let u ← decodeNat (.int 1000)
    let w ← decodeQ (.data "21.5")
    pure (u, w) : Except RedisError (Nat × ℚ)).map some) (.ok none) = _
  rw [h21]
  rfl

/-- C6: `ts_incrby` sends `TS.INCRBY` with arguments key, value, the
literal token `TIMESTAMP`, then the timestamp; `ts_decrby` sends
`TS.DECRBY` in the same order; the now-variants send only key then
value. -/
theorem c6_incr_decr_token_order {RV : Type} (dec : Decoder RV)
    (t : Transport) (key ts value : String) :
    (ts_incrby t key ts value dec).issued
        = [("TS.INCRBY", [key, value, "TIMESTAMP", ts])] ∧
    (ts_decrby t key ts value dec).issued
        = [("TS.DECRBY", [key, value, "TIMESTAMP", ts])] ∧
    (ts_incrby_now t key value dec).issued
        = [("TS.INCRBY", [key, value])] ∧
    (ts_decrby_now t key value dec).issued
        = [("TS.DECRBY", [key, value])] :=
  ⟨rfl, rfl, rfl, rfl⟩

/-- C9: the series-configuration encoder produces exactly
`RETENTION 60000 DUPLICATE_POLICY last UNCOMPRESSED LABELS sensor a` on the
spec's example, each unset field contributes zero tokens, and a
configuration with only the duplicate policy set emits exactly
`DUPLICATE_POLICY <value>`. -/
theorem c9_series_configuration_encoding (o : TsOptions)
    (p : TsDuplicatePolicy) :
    TsOptions.args
      { retention_time := some 60000, duplicate_policy := some .last,
        uncompressed := some true, labels := [("sensor", "a")] }
      = ["RETENTION", "60000", "DUPLICATE_POLICY", "last", "UNCOMPRESSED",
          "LABELS", "sensor", "a"] ∧
    TsOptions.args { duplicate_policy := some p }
      = ["DUPLICATE_POLICY", p.token] ∧
    o.args = retention_args o.retention_time ++ chunk_args o.chunk_size ++
      dup_args o.duplicate_policy ++ uncompressed_args o.uncompressed ++
      labels_args o.labels ∧
    retention_args none = [] ∧ chunk_args none = [] ∧ dup_args none = [] ∧
    uncompressed_args none = [] ∧ uncompressed_args (some false) = [] ∧
    labels_args [] = [] :=
  ⟨by decide, rfl, rfl, rfl, rfl, rfl, rfl, rfl, rfl⟩

/-- C2: every operation other than `ts_get` returns a transport failure
unmodified; no error is converted into an empty or default result. -/
theorem c2_transport_errors_surface {RV TS V : Type} (dec : Decoder RV)
    (dTS : Decoder TS) (dV : Decoder V) (t : Transport) (e : RedisError)
    (ht : ∀ n a, t n a = .error e)
    (key source_key dest_key ts value : String) (options : TsOptions)
    (values : List (String × String × String)) (agg : TsAggregationType)
    (query : TsRangeQuery) (fo : TsFilterOptions) (hf : fo.filters ≠ []) :
    (ts_info t key).result = .error e ∧
    (ts_create t key options dec).result = .error e ∧
    (ts_alter t key options dec).result = .error e ∧
    (ts_add t key ts value dec).result = .error e ∧
    (ts_add_now t key value dec).result = .error e ∧
    (ts_add_create t key ts value options dec).result = .error e ∧
    (ts_madd t values dec).result = .error e ∧
    (ts_incrby_now t key value dec).result = .error e ∧
    (ts_incrby t key ts value dec).result = .error e ∧
    (ts_incrby_create t key ts value options dec).result = .error e ∧
    (ts_decrby_now t key value dec).result = .error e ∧
    (ts_decrby t key ts value dec).result = .error e ∧
    (ts_decrby_create t key ts value options dec).result = .error e ∧
    (ts_createrule t source_key dest_key agg dec).result = .error e ∧
    (ts_deleterule t source_key dest_key dec).result = .error e ∧
    (ts_mget t fo dTS dV).result = .error e ∧
    (ts_range t key query dTS dV).result = .error e ∧
    (ts_revrange t key query dTS dV).result = .error e ∧
    (ts_mrange t query fo dTS dV).result = .error e ∧
    (ts_mrevrange t query fo dTS dV).result = .error e ∧
    (ts_queryindex t fo).result = .error e := by
  refine ⟨?_, ?_, ?_, ?_, ?_, ?_, ?_, ?_, ?_, ?_, ?_, ?_, ?_, ?_, ?_, ?_,
    ?_, ?_, ?_, ?_, ?_⟩ <;>
    simp [ts_info, ts_create, ts_alter, ts_add, ts_add_now, ts_add_create,
      ts_madd, ts_incrby_now, ts_incrby, ts_incrby_create, ts_decrby_now,
      ts_decrby, ts_decrby_create, ts_createrule, ts_deleterule, ts_mget,
      ts_range, ts_revrange, range, mrange, ts_mrange, ts_mrevrange,
      ts_queryindex, query_async, ht, filter_args_ok fo hf,
      get_filters_ok fo hf, Except.bind]

/-- C2 witness: a failing transport's error surfaces from `ts_info`. -/
theorem c2_witness :
    (ts_info (fun _ _ => .error "boom") "k").result = .error "boom" :=
  (c2_transport_errors_surface decodeString decodeNat decodeQ
    (fun _ _ => .error "boom") "boom" (fun _ _ => rfl) "k" "s" "d" "1" "2"
    {} [] ⟨.avg, 10⟩ {} { filters := [.eq "sensor" "a"] }
    (List.cons_ne_nil _ _)).1

/-- C5: `ts_range` and `ts_revrange` issue identical argument tokens (key
then the range-query tokens) and differ only in the command name; likewise
`ts_mrange` and `ts_mrevrange` (range-query tokens then the filter tokens)
differ only in the command name, both pairs routing through one shared
encoder. -/
theorem c5_shared_range_encoders {TS V : Type} (dTS : Decoder TS)
    (dV : Decoder V) (t : Transport) (key : String) (query : TsRangeQuery)
    (fo : TsFilterOptions) (hf : fo.filters ≠ []) :
    (ts_range t key query dTS dV).issued
        = [("TS.RANGE", key :: query.args)] ∧
    (ts_revrange t key query dTS dV).issued
        = [("TS.REVRANGE", key :: query.args)] ∧
    (∃ ftoks, fo.args = .ok ftoks ∧
      (ts_mrange t query fo dTS dV).issued
          = [("TS.MRANGE", query.args ++ ftoks)] ∧
      (ts_mrevrange t query fo dTS dV).issued
          = [("TS.MREVRANGE", query.args ++ ftoks)]) := by
  refine ⟨rfl, rfl, _, filter_args_ok fo hf, ?_, ?_⟩ <;>
    simp [ts_mrange, ts_mrevrange, mrange, filter_args_ok fo hf, query_async]

/-- C5 witness: the single-series range query on a default query issues the
key followed by the sentinel bounds. -/
theorem c5_witness :
    (ts_range (fun _ _ => .ok .nil) "k" {} decodeNat decodeQ).issued
      = [("TS.RANGE", ["k", "-", "+"])] :=
  (c5_shared_range_encoders decodeNat decodeQ (fun _ _ => .ok .nil) "k" {}
    { filters := [.eq "sensor" "a"] } (List.cons_ne_nil _ _)).1

/-- C7: every operation issues exactly one command to the transport (the
single suspend/resolve point); the filter-taking operations issue at most
one, and exactly one whenever the filter set is nonempty. -/
theorem c7_single_transport_call {RV TS V : Type} (dec : Decoder RV)
    (dTS : Decoder TS) (dV : Decoder V) (t : Transport)
    (key source_key dest_key ts value : String) (options : TsOptions)
    (values : List (String × String × String)) (agg : TsAggregationType)
    (query : TsRangeQuery) (fo : TsFilterOptions) (hf : fo.filters ≠ []) :
    (ts_info t key).issued.length = 1 ∧
    (ts_create t key options dec).issued.length = 1 ∧
    (ts_alter t key options dec).issued.length = 1 ∧
    (ts_add t key ts value dec).issued.length = 1 ∧
    (ts_add_now t key value dec).issued.length = 1 ∧
    (ts_add_create t key ts value options dec).issued.length = 1 ∧
    (ts_madd t values dec).issued.length = 1 ∧
    (ts_incrby_now t key value dec).issued.length = 1 ∧
    (ts_incrby t key ts value dec).issued.length = 1 ∧
    (ts_incrby_create t key ts value options dec).issued.length = 1 ∧
    (ts_decrby_now t key value dec).issued.length = 1 ∧
    (ts_decrby t key ts value dec).issued.length = 1 ∧
    (ts_decrby_create t key ts value options dec).issued.length = 1 ∧
    (ts_createrule t source_key dest_key agg dec).issued.length = 1 ∧
    (ts_deleterule t source_key dest_key dec).issued.length = 1 ∧
    (ts_get t key dTS dV).issued.length = 1 ∧
    (ts_mget t fo dTS dV).issued.length = 1 ∧
    (ts_range t key query dTS dV).issued.length = 1 ∧
    (ts_revrange t key query dTS dV).issued.length = 1 ∧
    (ts_mrange t query fo dTS dV).issued.length = 1 ∧
    (ts_mrevrange t query fo dTS dV).issued.length = 1 ∧
    (ts_queryindex t fo).issued.length = 1 ∧
    (∀ fo' : TsFilterOptions,
      (ts_mget t fo' dTS dV).issued.length ≤ 1 ∧
      (ts_mrange t query fo' dTS dV).issued.length ≤ 1 ∧
      (ts_mrevrange t query fo' dTS dV).issued.length ≤ 1 ∧
      (ts_queryindex t fo').issued.length ≤ 1) := by
  refine ⟨rfl, rfl, rfl, rfl, rfl, rfl, rfl, rfl, rfl, rfl, rfl, rfl, rfl,
    rfl, rfl, rfl, ?_, rfl, rfl, ?_, ?_, ?_, ?_⟩
  · simp [ts_mget, filter_args_ok fo hf, query_async]
  · simp [ts_mrange, mrange, filter_args_ok fo hf, query_async]
  · simp [ts_mrevrange, mrange, filter_args_ok fo hf, query_async]
  · simp [ts_queryindex, get_filters_ok fo hf, query_async]
  · intro fo'
    rcases h : fo'.filters with _ | ⟨f, rest⟩
    · simp [ts_mget, ts_mrange, ts_mrevrange, mrange, ts_queryindex,
        filter_args_empty fo' h, get_filters_empty fo' h]
    · have hne : fo'.filters ≠ [] := by
        rw [h]
        exact List.cons_ne_nil _ _
      simp [ts_mget, ts_mrange, ts_mrevrange, mrange, ts_queryindex,
        filter_args_ok fo' hne, get_filters_ok fo' hne, query_async]

/-- C7 witness: `ts_info` makes exactly one transport call. -/
theorem c7_witness :
    (ts_info (fun _ _ => .ok .nil) "k").issued.length = 1 :=
  (c7_single_transport_call decodeString decodeNat decodeQ
    (fun _ _ => .ok .nil) "k" "s" "d" "1" "2" {} [] ⟨.avg, 10⟩ {}
    { filters := [.eq "sensor" "a"] } (List.cons_ne_nil _ _)).1

/-- C8: with an empty filter set, every filter-requiring operation fails
before any wire tokens are produced and before the transport is called. -/
theorem c8_empty_filter_rejected {TS V : Type} (dTS : Decoder TS)
    (dV : Decoder V) (t : Transport) (query : TsRangeQuery)
    (fo : TsFilterOptions) (hf : fo.filters = []) :
    (ts_mget t fo dTS dV).issued = [] ∧
    (ts_mget t fo dTS dV).result
        = .error "at least one filter expression is required" ∧
    (ts_mrange t query fo dTS dV).issued = [] ∧
    (ts_mrange t query fo dTS dV).result
        = .error "at least one filter expression is required" ∧
    (ts_mrevrange t query fo dTS dV).issued = [] ∧
    (ts_mrevrange t query fo dTS dV).result
        = .error "at least one filter expression is required" ∧
    (ts_queryindex t fo).issued = [] ∧
    (ts_queryindex t fo).result
        = .error "at least one filter expression is required" := by
  refine ⟨?_, ?_, ?_, ?_, ?_, ?_, ?_, ?_⟩ <;>
    simp [ts_mget, ts_mrange, ts_mrevrange, mrange, ts_queryindex,
      filter_args_empty fo hf, get_filters_empty fo hf]

/-- C8 witness: the default (empty) filter set makes `ts_mget` fail with no
transport call. -/
theorem c8_witness :
    (ts_mget (fun _ _ => .ok .nil) {} decodeNat decodeQ).issued = [] :=
  (c8_empty_filter_rejected decodeNat decodeQ (fun _ _ => .ok .nil) {} {}
    rfl).1

/-- C10: `ts_queryindex` sends only the predicate tokens of the filter set;
the auxiliary with-labels / selected-labels / count options never
contribute a token. -/
theorem c10_queryindex_only_filter_tokens (t : Transport)
    (fo : TsFilterOptions) (hf : fo.filters ≠ []) :
    (ts_queryindex t fo).issued
        = [("TS.QUERYINDEX", fo.filters.map TsFilter.token)] ∧
    (∀ wl sl c, ts_queryindex t
        { fo with with_labels := wl, selected_labels := sl, count := c }
      = ts_queryindex t fo) := by
  constructor
  · simp [ts_queryindex, get_filters_ok fo hf, query_async]
  · intro wl sl c
    rfl

/-- C10 witness: a one-predicate filter set reaches the wire as its single
predicate token, and nothing else. -/
theorem c10_witness :
    (ts_queryindex (fun _ _ => .ok (.bulk []))
      { filters := [.eq "sensor" "a"] }).issued
      = [("TS.QUERYINDEX", ["sensor=a"])] :=
  ((c10_queryindex_only_filter_tokens (fun _ _ => .ok (.bulk []))
    { filters := [.eq "sensor" "a"] } (List.cons_ne_nil _ _)).1).trans
    (by decide)

end RedisTs
